import Mathlib

/-!
Shallow embedding of the monitoring core of the jiraLogger repository
(`extension/polling-manager.js`, `extension/xml-manager.js`,
`extension/notification-manager.js`, `extension/task-manager.js`).

Times are milliseconds.  JavaScript numbers holding timestamps are modelled
as `Int` (a `Date` subtraction may be negative); counters as `Nat`.
JavaScript `Map`s are modelled as association lists with first-match
`List.lookup`; `Map.set` becomes a prepend, which is lookup-equivalent to
overwrite.
-/

namespace JiraLogger

/-! ## Polling manager (`PollingManager`) -/

/-- `this.pollingInterval` — base polling interval, 30 seconds. -/
def pollingInterval : Nat := 30000

/-- The 15-minute cap used in `getTaskInterval`. -/
def maxBackoff : Nat := 900000

/-- `PollingManager.getTaskInterval`.  `errorCount` is
`this.errorCounts.get(taskId) || 0`, `lastUpdate` is
`this.lastUpdateTimes.get(taskId)` (`none` = `undefined`), `now` is
`Date.now()`.  The JavaScript guard `if (!lastUpdate)` is falsy-true both
for `undefined` and for the number `0`, which the `lu = 0` test mirrors. -/
def getTaskInterval (errorCount : Nat) (lastUpdate : Option Int) (now : Int) : Nat :=
  if errorCount > 0 then
    min (pollingInterval * 2 ^ errorCount) maxBackoff
  else
    match lastUpdate with
    | none => pollingInterval
    | some lu =>
      if lu = 0 then pollingInterval
      else
        let timeSinceUpdate := now - lu
        if timeSinceUpdate < 3600000 then 30000
        else if timeSinceUpdate < 86400000 then 300000
        else 900000

/-! ## XML manager (`XMLManager`) -/

/-- A parsed record snapshot: the four scalar fields compared by
`detectChanges` plus the ordered comment list. -/
structure TaskData where
  status : String
  assignee : String
  priority : String
  resolution : String
  comments : List String
deriving DecidableEq

/-- A `{from, to}` delta for one scalar field (`from` is a Lean keyword,
hence `fromVal`/`toVal`). -/
structure FieldChange where
  fromVal : String
  toVal : String
deriving DecidableEq

/-- The `details` object built by `detectChanges`: the `isNew` marker,
one optional delta per scalar field, and the optional `newComments` list. -/
structure ChangeDetails where
  isNew : Bool
  status : Option FieldChange
  assignee : Option FieldChange
  priority : Option FieldChange
  resolution : Option FieldChange
  newComments : Option (List String)
deriving DecidableEq

/-- The value returned by `detectChanges`. -/
structure Changes where
  hasChanges : Bool
  details : ChangeDetails
deriving DecidableEq

/-- One iteration of the `forEach` field loop in `detectChanges`:
record `{from, to}` when the values differ (strict `!==` on strings). -/
def fieldDiff (o n : String) : Option FieldChange :=
  if o ≠ n then some { fromVal := o, toVal := n } else none

/-- `XMLManager.detectChanges(oldData, newData)`.  `oldData = none` models
the absent cache entry (`!oldData`). -/
def detectChanges (oldData : Option TaskData) (newData : TaskData) : Changes :=
  match oldData with
  | none =>
    { hasChanges := true
      details :=
        { isNew := true, status := none, assignee := none, priority := none
          resolution := none, newComments := none } }
  | some od =>
    let st := fieldDiff od.status newData.status
    let asg := fieldDiff od.assignee newData.assignee
    let pr := fieldDiff od.priority newData.priority
    let rs := fieldDiff od.resolution newData.resolution
    let nc :=
      if newData.comments.length > od.comments.length then
        some (newData.comments.drop od.comments.length)
      else none
    { hasChanges := st.isSome || asg.isSome || pr.isSome || rs.isSome || nc.isSome
      details :=
        { isNew := false, status := st, assignee := asg, priority := pr
          resolution := rs, newComments := nc } }

/-- The object returned by `processXMLData`. -/
structure ProcessResult where
  changed : Bool
  changes : ChangeDetails
  data : TaskData
deriving DecidableEq

/-- `XMLManager.processXMLData(xmlText, taskUrl)` for one task URL, taking
the already-parsed snapshot (`parseXML` is applied upstream and is not part
of the diff logic).  `cache` is `this.cache.get(taskUrl)`; the second
component of the result is the cache entry after the call. -/
def processXMLData (cache : Option TaskData) (taskData : TaskData) :
    ProcessResult × Option TaskData :=
  let changes := detectChanges cache taskData
  let cacheAfter := if changes.hasChanges then some taskData else cache
  ({ changed := changes.hasChanges, changes := changes.details, data := taskData },
   cacheAfter)

/-! ## Notification manager (`NotificationManager`) -/

/-- A queued notification, as built by `createNotification`. -/
structure NotificationEntry where
  id : Int
  taskKey : String
  title : String
  message : String
  type : String
  timestamp : Int
  groupId : String
deriving DecidableEq

/-- The 5-minute grouping window used in `tryGroupNotification`. -/
def groupingWindow : Int := 300000

/-- Modelled from the spec: `createGroupMessage` is absent from the source
(only its call site is); the spec says merging replaces the existing
entry's message with "a combined summary".  Its exact text is irrelevant
to every claim; any concrete combination function serves. -/
def createGroupMessage (similar incoming : NotificationEntry) : String :=
  similar.message ++ "; " ++ incoming.message

/-- The predicate of the `find` callback in `tryGroupNotification`: same
`groupId`, and the incoming timestamp less than 5 minutes after the queued
entry's timestamp (JavaScript `Date` subtraction, signed). -/
def isSimilar (incoming queued : NotificationEntry) : Bool :=
  queued.groupId == incoming.groupId &&
    decide (incoming.timestamp - queued.timestamp < groupingWindow)

/-- `NotificationManager.tryGroupNotification`.  `Array.prototype.find`
returns the first match; mutating `similar.message` in place becomes
rebuilding the queue with that one entry's message replaced.  `none`
models the `return false` path (no similar entry). -/
def tryGroupNotification (queue : List NotificationEntry)
    (incoming : NotificationEntry) : Option (List NotificationEntry) :=
  match queue with
  | [] => none
  | q :: rest =>
    if isSimilar incoming q then
      some ({ q with message := createGroupMessage q incoming } :: rest)
    else
      match tryGroupNotification rest incoming with
      | some rest' => some (q :: rest')
      | none => none

/-- `NotificationManager.addNotification` restricted to its queue effect:
when grouping is enabled and a similar entry exists the entry is merged,
otherwise it is pushed onto the end of `this.notificationQueue`. -/
def addNotification (grouping : Bool) (queue : List NotificationEntry)
    (incoming : NotificationEntry) : List NotificationEntry :=
  if grouping then
    match tryGroupNotification queue incoming with
    | some queue' => queue'
    | none => queue ++ [incoming]
  else
    queue ++ [incoming]

/-- The `update` argument of `createNotification`, reduced to the fields it
reads (`update.taskKey`, `update.changes.type`). -/
structure UpdateInfo where
  taskKey : String
  changesType : String
deriving DecidableEq

/-- `NotificationManager.createNotification`.  `nowId` is `Date.now()` and
`nowTs` is `new Date()`; `title`/`message` stand for `createTitle(update)`
and `createMessage(update)`, whose bodies are absent from the source. -/
def createNotification (update : UpdateInfo) (title message : String)
    (nowId nowTs : Int) : NotificationEntry :=
  { id := nowId, taskKey := update.taskKey, title := title, message := message
    type := update.changesType, timestamp := nowTs, groupId := update.taskKey }

/-! ## Task manager (`TaskManager`) and the persistent store

`StorageManager`, `resumeTask`, `handleChanges`, `handleError`,
`extractTaskId` and `validateTask` are called from `TaskManager` but their
bodies are absent from the source; each definition below that stands in for
one of them is marked `Modelled from the spec:`. -/

/-- A cycle-level failure: `fetchTaskXML` throws on a non-OK HTTP status or
a network error, and parsing throws on a malformed payload. -/
inductive CycleError where
  | fetchError (status : Nat)
  | parseError
deriving DecidableEq

/-- The persisted shape of a task.  `url`, `added`, `lastCheck` and
`status` are the literal fields written by `TaskManager.addTask`; the
remaining fields are Modelled from the spec: §3 lists the cached last-known
record, the consecutive-error counter and the last-change timestamp as part
of the persisted Task, written by the per-cycle persistence that is absent
from the source. -/
structure PersistedTask where
  url : String
  added : Int
  lastCheck : Option Int
  lastChange : Option Int
  snapshot : Option TaskData
  errorCount : Nat
  status : String
deriving DecidableEq

/-- Modelled from the spec: `StorageManager.saveTask(id, task)` with
read-your-writes consistency.  Prepending is lookup-equivalent to
overwriting under first-match `List.lookup`. -/
def saveTask (id : String) (t : PersistedTask)
    (store : List (String × PersistedTask)) : List (String × PersistedTask) :=
  (id, t) :: store

/-- The in-memory state the `TaskManager` instance spreads over its
collaborators: `activeTasks` (id ↦ source URL), the polling manager's
`errorCounts` and `lastUpdateTimes`, the XML manager's `cache`, and the
persistent store. -/
structure TaskManagerState where
  activeTasks : List (String × String)
  errorCounts : List (String × Nat)
  lastUpdateTimes : List (String × Int)
  cache : List (String × TaskData)
  store : List (String × PersistedTask)
deriving DecidableEq

/-- The state of a fresh `TaskManager` with an empty store. -/
def emptyTMState : TaskManagerState :=
  { activeTasks := [], errorCounts := [], lastUpdateTimes := [], cache := []
    store := [] }

/-- `this.errorCounts.get(taskId) || 0`. -/
def getErrorCount (ec : List (String × Nat)) (id : String) : Nat :=
  (ec.lookup id).getD 0

/-- Modelled from the spec: `extractTaskId` derives the stable identifier
from the source locator; the claims need only that it is deterministic. -/
def extractTaskId (url : String) : String := url

/-- `TaskManager.addTask` after a successful `validateTask`: persist
`{url, added: Date.now(), lastCheck: null, status: 'active'}` (absent
fields take their undefined/zero model values) and register the task. -/
def addTask (url : String) (now : Int) (st : TaskManagerState) :
    String × TaskManagerState :=
  let id := extractTaskId url
  let t : PersistedTask :=
    { url := url, added := now, lastCheck := none, lastChange := none
      snapshot := none, errorCount := 0, status := "active" }
  (id, { st with activeTasks := (id, url) :: st.activeTasks
                 store := saveTask id t st.store })

/-- Modelled from the spec: `handleError` — "on failure: increments the
error counter and persists, then continues the loop". -/
def handleError (id : String) (st : TaskManagerState) : TaskManagerState :=
  let k := getErrorCount st.errorCounts id + 1
  { st with
    errorCounts := (id, k) :: st.errorCounts
    store :=
      match st.store.lookup id with
      | some pt => saveTask id { pt with errorCount := k } st.store
      | none => st.store }

/-- Modelled from the spec: `handleChanges` — "on success with changes:
forwards the ChangeSet to the Dispatcher and persists the updated Task plus
new snapshot"; the record-change time feeds the polling manager's
`lastUpdateTimes`.  The dispatcher hand-off is the `addNotification` model
above and carries no task state. -/
def handleChanges (id : String) (result : ProcessResult) (now : Int)
    (st : TaskManagerState) : TaskManagerState :=
  { st with
    cache := (id, result.data) :: st.cache
    lastUpdateTimes := (id, now) :: st.lastUpdateTimes
    store :=
      match st.store.lookup id with
      | some pt =>
        saveTask id
          { pt with snapshot := some result.data, lastChange := some now
                    lastCheck := some now, errorCount := 0 } st.store
      | none => st.store }

/-- Modelled from the spec: "on success without changes: persists only the
updated last-check timestamp". -/
def persistLastCheck (id : String) (now : Int) (st : TaskManagerState) :
    TaskManagerState :=
  { st with
    store :=
      match st.store.lookup id with
      | some pt => saveTask id { pt with lastCheck := some now } st.store
      | none => st.store }

/-- The next delay the scheduler yields for `id` in state `st`. -/
def nextDelayOf (st : TaskManagerState) (id : String) (now : Int) : Nat :=
  getTaskInterval (getErrorCount st.errorCounts id)
    (st.lastUpdateTimes.lookup id) now

/-- One iteration of the `monitor` closure in `TaskManager.startMonitoring`:
the fetch outcome is passed in (`Except.error` models the thrown
`FetchError`/`ParseError` reaching the `catch`).  On success the error
counter resets (Modelled from the spec: §3) and `getTaskInterval` schedules
the next check (`some delay` models `setTimeout(monitor, nextInterval)`);
on failure `handleError` runs and — Modelled from the spec: "then continues
the loop" — the next check is scheduled from the updated state. -/
def monitorCycle (id : String) (fetchResult : Except CycleError ProcessResult)
    (now : Int) (st : TaskManagerState) : TaskManagerState × Option Nat :=
  match fetchResult with
  | Except.ok result =>
    let st1 := { st with errorCounts := (id, 0) :: st.errorCounts }
    let st2 :=
      if result.changed then handleChanges id result now st1
      else persistLastCheck id now st1
    (st2, some (nextDelayOf st2 id now))
  | Except.error _ =>
    let st1 := handleError id st
    (st1, some (nextDelayOf st1 id now))

/-- Whether a persisted lifecycle status re-enters monitoring on resume.
Modelled from the spec: "every persisted task whose status is non-terminal
is re-entered into `Monitoring`". -/
def nonTerminal (s : String) : Bool :=
  !(s == "completed" || s == "removed")

/-- Modelled from the spec: `TaskManager.initialize`/`resumeTask` — rebuild
the in-memory state from the persisted store, re-entering every
non-terminal task with its persisted source locator, snapshot, error
counter and last-change timestamp. -/
def resumeState (store : List (String × PersistedTask)) : TaskManagerState :=
  { activeTasks :=
      store.filterMap fun p =>
        if nonTerminal p.2.status then some (p.1, p.2.url) else none
    errorCounts :=
      store.filterMap fun p =>
        if nonTerminal p.2.status then some (p.1, p.2.errorCount) else none
    lastUpdateTimes :=
      store.filterMap fun p =>
        if nonTerminal p.2.status then
          match p.2.lastChange with
          | some t => some (p.1, t)
          | none => none
        else none
    cache :=
      store.filterMap fun p =>
        if nonTerminal p.2.status then
          match p.2.snapshot with
          | some d => some (p.1, d)
          | none => none
        else none
    store := store }

/-- The observable per-task view of a state: source locator, cached
snapshot, consecutive-error counter and last-change time. -/
structure LiveTask where
  url : Option String
  snapshot : Option TaskData
  errorCount : Nat
  lastUpdate : Option Int
deriving DecidableEq

/-- Project the live view of task `id` out of a manager state. -/
def liveView (st : TaskManagerState) (id : String) : LiveTask :=
  { url := st.activeTasks.lookup id, snapshot := st.cache.lookup id
    errorCount := getErrorCount st.errorCounts id
    lastUpdate := st.lastUpdateTimes.lookup id }

/-! ## Scheduler claims -/

/-- C1: for every task, the scheduler's next delay (`getTaskInterval`) lies
in the closed range [30 seconds, 15 minutes], over all branches: error
backoff, first check with no prior update time, and the three activity
tiers. -/
theorem nextDelay_in_range (errorCount : Nat) (lastUpdate : Option Int)
    (now : Int) :
    30000 ≤ getTaskInterval errorCount lastUpdate now ∧
      getTaskInterval errorCount lastUpdate now ≤ 900000 := by
  unfold getTaskInterval
  split
  · constructor
    · refine le_min ?_ (by norm_num [maxBackoff])
      calc (30000 : Nat) = pollingInterval * 1 := by norm_num [pollingInterval]
        _ ≤ pollingInterval * 2 ^ errorCount :=
            Nat.mul_le_mul_left _ Nat.one_le_two_pow
    · exact le_trans (min_le_right _ _) (by norm_num [maxBackoff])
  · cases lastUpdate with
    | none => exact ⟨by norm_num [pollingInterval], by norm_num [pollingInterval]⟩
    | some lu =>
      simp only
      split
      · exact ⟨by norm_num [pollingInterval], by norm_num [pollingInterval]⟩
      · split
        · exact ⟨by norm_num, by norm_num⟩
        · split
          · exact ⟨by norm_num, by norm_num⟩
          · exact ⟨by norm_num, by norm_num⟩

/-- C2: for every task with `consecutiveErrorCount = k > 0`, the next delay
equals `min(base * 2^k, 15min)` with base = 30 seconds, whatever the
last-update recency (the error branch is evaluated first and dominates);
and three consecutive errors give `base * 8`. -/
theorem errorBackoff_dominates (errorCount : Nat) (lastUpdate : Option Int)
    (now : Int) (h : 0 < errorCount) :
    getTaskInterval errorCount lastUpdate now =
        min (pollingInterval * 2 ^ errorCount) maxBackoff ∧
      getTaskInterval 3 lastUpdate now = pollingInterval * 8 := by
  constructor
  · unfold getTaskInterval
    rw [if_pos h]
  · unfold getTaskInterval
    norm_num [pollingInterval, maxBackoff]

/-- Witness for C2 at `errorCount = 1`, an arbitrary last-update time and
clock. -/
theorem errorBackoff_dominates_witness :
    0 < 1 ∧
      (getTaskInterval 1 (some 5) 6 =
          min (pollingInterval * 2 ^ 1) maxBackoff ∧
        getTaskInterval 3 (some 5) 6 = pollingInterval * 8) :=
  ⟨Nat.zero_lt_one, errorBackoff_dominates 1 (some 5) 6 Nat.zero_lt_one⟩

/-! ## Fetch & diff claims -/

/-- A field compared with itself yields no delta. -/
theorem fieldDiff_self (s : String) : fieldDiff s s = none := by
  simp [fieldDiff]

/-- Diffing a snapshot against itself reports no change. -/
theorem detectChanges_self (d : TaskData) :
    (detectChanges (some d) d).hasChanges = false := by
  simp [detectChanges, fieldDiff_self]

/-- C3: the per-task cache is replaced by the new snapshot exactly when the
diff reports `hasChanges = true` (first conjunct), and a second
fetch-and-diff of the same remote content reports `hasChanges = false` and
leaves the cached snapshot unmodified (no-op cycle idempotence). -/
theorem cache_replace_iff_changes_idempotent (cache : Option TaskData)
    (d : TaskData) :
    ((processXMLData cache d).2 =
        if (processXMLData cache d).1.changed then some d else cache) ∧
      (processXMLData (processXMLData cache d).2 d).1.changed = false ∧
      (processXMLData (processXMLData cache d).2 d).2 =
        (processXMLData cache d).2 := by
  have h2 : ∀ c : Option TaskData, (detectChanges c d).hasChanges = false →
      (processXMLData c d).1.changed = false ∧ (processXMLData c d).2 = c := by
    intro c hc
    unfold processXMLData
    simp [hc]
  refine ⟨rfl, ?_⟩
  by_cases h : (detectChanges cache d).hasChanges = true
  · have hc1 : (processXMLData cache d).2 = some d := by
      unfold processXMLData
      simp [h]
    rw [hc1]
    exact h2 (some d) (detectChanges_self d)
  · have hb : (detectChanges cache d).hasChanges = false :=
      Bool.eq_false_iff.mpr h
    have hc1 : (processXMLData cache d).2 = cache := by
      unfold processXMLData
      simp [hb]
    rw [hc1]
    exact h2 cache hb

/-- A concrete first-fetch snapshot (Scenario A's `{status: "To Do"}`). -/
def snapshotA : TaskData :=
  { status := "To Do", assignee := "alice", priority := "High"
    resolution := "", comments := ["first comment"] }

/-- A second concrete snapshot, different from `snapshotA` in every field. -/
def snapshotB : TaskData :=
  { status := "Done", assignee := "bob", priority := "Low"
    resolution := "Fixed", comments := [] }

/-- C5 counterexample: on a first fetch (no cached prior snapshot) the
details do NOT carry the full new snapshot — two different snapshots
produce identical details (the bare `isNew` marker), and no field value or
comment of the snapshot appears in them. -/
theorem firstFetch_details_counterexample :
    (detectChanges none snapshotA).hasChanges = true ∧
      (detectChanges none snapshotA).details =
        (detectChanges none snapshotB).details ∧
      snapshotA ≠ snapshotB ∧
      (detectChanges none snapshotA).details.status = none ∧
      (detectChanges none snapshotA).details.newComments = none := by
  decide

/-- C5 as amended: for every task with no cached prior snapshot, a
successful fetch-and-diff cycle yields `isNew = true` and
`hasChanges = true` with details carrying only the `isNew` marker; the full
new snapshot travels in the result's `data` field and is cached. -/
theorem firstFetch_isNew_cached (d : TaskData) :
    processXMLData none d =
      ({ changed := true
         changes :=
           { isNew := true, status := none, assignee := none, priority := none
             resolution := none, newComments := none }
         data := d }, some d) := rfl

/-- C6: whenever the new comment list is strictly longer than the old one,
the diff reports `newComments` equal to exactly the tail slice of the new
list of length (new length minus old length), in original order, and sets
`hasChanges = true`. -/
theorem newComments_tail_slice (od nd : TaskData)
    (h : od.comments.length < nd.comments.length) :
    (detectChanges (some od) nd).hasChanges = true ∧
      (detectChanges (some od) nd).details.newComments =
        some (nd.comments.drop od.comments.length) ∧
      (nd.comments.drop od.comments.length).length =
        nd.comments.length - od.comments.length ∧
      nd.comments.take od.comments.length ++
          nd.comments.drop od.comments.length = nd.comments := by
  refine ⟨?_, ?_, List.length_drop _ _, List.take_append_drop _ _⟩
  · unfold detectChanges
    simp [h]
  · unfold detectChanges
    simp [h]

/-- Scenario D's old snapshot: two comments. -/
def commentsOld : TaskData :=
  { status := "s", assignee := "a", priority := "p", resolution := "r"
    comments := ["c1", "c2"] }

/-- Scenario D's new snapshot: the same scalars, five comments. -/
def commentsNew : TaskData :=
  { status := "s", assignee := "a", priority := "p", resolution := "r"
    comments := ["c1", "c2", "c3", "c4", "c5"] }

/-- Witness for C6 on Scenario D: growth from 2 to 5 comments reports
exactly the 3 appended entries in order. -/
theorem newComments_tail_slice_witness :
    commentsOld.comments.length < commentsNew.comments.length ∧
      ((detectChanges (some commentsOld) commentsNew).hasChanges = true ∧
        (detectChanges (some commentsOld) commentsNew).details.newComments =
          some (commentsNew.comments.drop commentsOld.comments.length) ∧
        (commentsNew.comments.drop commentsOld.comments.length).length =
          commentsNew.comments.length - commentsOld.comments.length ∧
        commentsNew.comments.take commentsOld.comments.length ++
            commentsNew.comments.drop commentsOld.comments.length =
          commentsNew.comments) ∧
      (detectChanges (some commentsOld) commentsNew).details.newComments =
        some ["c3", "c4", "c5"] :=
  ⟨by decide, newComments_tail_slice commentsOld commentsNew (by decide),
    by decide⟩

/-! ## Notification queue claims -/

/-- Grouping finds the first similar entry: with no similar entry before it
and `e` similar, the queue comes back with exactly `e`'s message rewritten. -/
theorem tryGroupNotification_first_match (q1 q2 : List NotificationEntry)
    (e n : NotificationEntry) (h1 : ∀ x ∈ q1, isSimilar n x = false)
    (h2 : isSimilar n e = true) :
    tryGroupNotification (q1 ++ e :: q2) n =
      some (q1 ++ { e with message := createGroupMessage e n } :: q2) := by
  induction q1 with
  | nil => simp [tryGroupNotification, h2]
  | cons a as ih =>
    have ha : isSimilar n a = false := h1 a (by simp)
    have ih' := ih fun x hx => h1 x (by simp [hx])
    simp [tryGroupNotification, ha, ih']

/-- Every field of a queued entry except `message`, in queue order. -/
def frameOf (e : NotificationEntry) :
    Int × String × String × String × Int × String :=
  (e.id, e.taskKey, e.title, e.type, e.timestamp, e.groupId)

/-- A successful merge changes nothing but one entry's `message`: the
queue's image under `frameOf` (ids, task keys, titles, types, timestamps,
group ids, and positions) is untouched. -/
theorem tryGroupNotification_frame (q : List NotificationEntry)
    (n : NotificationEntry) :
    ∀ q', tryGroupNotification q n = some q' →
      q'.map frameOf = q.map frameOf := by
  induction q with
  | nil =>
    intro q' h
    simp [tryGroupNotification] at h
  | cons a as ih =>
    intro q' h
    unfold tryGroupNotification at h
    cases ha : isSimilar n a with
    | true =>
      rw [ha] at h
      simp at h
      subst h
      simp [frameOf]
    | false =>
      rw [ha] at h
      simp at h
      cases hrest : tryGroupNotification as n with
      | none => rw [hrest] at h; simp at h
      | some rest' =>
        rw [hrest] at h
        simp at h
        subst h
        simp [ih rest' hrest]

/-- When every same-group queued entry is at least the grouping window
older than the incoming timestamp, no entry is similar and grouping fails. -/
theorem tryGroupNotification_none_of_far (q : List NotificationEntry)
    (n : NotificationEntry)
    (h : ∀ e ∈ q, e.groupId = n.groupId →
      groupingWindow ≤ n.timestamp - e.timestamp) :
    tryGroupNotification q n = none := by
  induction q with
  | nil => rfl
  | cons a as ih =>
    have ha : isSimilar n a = false := by
      unfold isSimilar
      by_cases hg : a.groupId = n.groupId
      · have hfar := h a (by simp) hg
        simp only [groupingWindow] at hfar
        simp [hg, groupingWindow]
        omega
      · simp [hg]
    have ihh : tryGroupNotification as n = none :=
      ih fun e he hg => h e (by simp [he]) hg
    simp [tryGroupNotification, ha, ihh]

/-- C4: when a second notification for the same group key arrives while the
first is still queued and within the 5-minute window of the first entry's
timestamp, it merges into that entry — its message becomes the combined
summary — and the queue gains no second slot. -/
theorem grouping_merges_within_window (q1 q2 : List NotificationEntry)
    (e n : NotificationEntry) (h1 : ∀ x ∈ q1, isSimilar n x = false)
    (h2 : isSimilar n e = true) :
    addNotification true (q1 ++ e :: q2) n =
        q1 ++ { e with message := createGroupMessage e n } :: q2 ∧
      (addNotification true (q1 ++ e :: q2) n).length =
        (q1 ++ e :: q2).length := by
  have ht := tryGroupNotification_first_match q1 q2 e n h1 h2
  refine ⟨by simp [addNotification, ht], ?_⟩
  simp [addNotification, ht]

/-- A queued entry from an unrelated task. -/
def entryOther : NotificationEntry :=
  { id := 1, taskKey := "OTHER-1", title := "t0", message := "m0"
    type := "status", timestamp := 0, groupId := "OTHER-1" }

/-- The first queued entry for task `PROJ-1`, created at t = 1000 ms. -/
def entryFirst : NotificationEntry :=
  { id := 2, taskKey := "PROJ-1", title := "t1", message := "m1"
    type := "status", timestamp := 1000, groupId := "PROJ-1" }

/-- A `PROJ-1` update arriving at t = 200000 ms, inside the 5-minute
window of `entryFirst`. -/
def entryIncoming : NotificationEntry :=
  { id := 3, taskKey := "PROJ-1", title := "t2", message := "m2"
    type := "comment", timestamp := 200000, groupId := "PROJ-1" }

/-- Witness for C4: with `entryOther` and `entryFirst` queued, enqueueing
`entryIncoming` merges into `entryFirst` and keeps the queue at two slots. -/
theorem grouping_merges_within_window_witness :
    (∀ x ∈ [entryOther], isSimilar entryIncoming x = false) ∧
      isSimilar entryIncoming entryFirst = true ∧
      (addNotification true ([entryOther] ++ entryFirst :: [])
            entryIncoming =
          [entryOther] ++
            { entryFirst with
              message := createGroupMessage entryFirst entryIncoming } :: [] ∧
        (addNotification true ([entryOther] ++ entryFirst :: [])
              entryIncoming).length =
          ([entryOther] ++ entryFirst :: []).length) :=
  ⟨by decide, by decide,
    grouping_merges_within_window [entryOther] [] entryFirst entryIncoming
      (by decide) (by decide)⟩

/-- C10: a merge changes only the matched entry's `message` — every queued
entry keeps its id, task key, title, type, timestamp, group id and position
(`frameOf` image unchanged); and because the merge never refreshes the
queued timestamp, an update arriving 5 minutes or more after the first
entry's creation starts a new queue slot, even if it is within 5 minutes of
the most recently merged update. -/
theorem merge_frame_and_window_anchor (q : List NotificationEntry)
    (n : NotificationEntry) :
    (∀ q', tryGroupNotification q n = some q' →
        q'.map frameOf = q.map frameOf) ∧
      ((∀ e ∈ q, e.groupId = n.groupId →
          groupingWindow ≤ n.timestamp - e.timestamp) →
        addNotification true q n = q ++ [n]) := by
  refine ⟨tryGroupNotification_frame q n, fun h => ?_⟩
  have hnone := tryGroupNotification_none_of_far q n h
  simp [addNotification, hnone]

/-- The queue after `entryIncoming` merged into `entryFirst`: one slot,
message combined, timestamp still that of `entryFirst`. -/
def mergedQueue : List NotificationEntry :=
  [{ entryFirst with
      message := createGroupMessage entryFirst entryIncoming }]

/-- A `PROJ-1` update at t = 301000 ms: exactly 5 minutes after
`entryFirst` (no merge) yet within 5 minutes of `entryIncoming`. -/
def entryLate : NotificationEntry :=
  { id := 4, taskKey := "PROJ-1", title := "t3", message := "m3"
    type := "status", timestamp := 301000, groupId := "PROJ-1" }

/-- Witness for C10: the merge of `entryIncoming` into `[entryFirst]`
keeps the frame, and `entryLate` — 300000 ms after `entryFirst` but only
101000 ms after `entryIncoming` — opens a new queue slot. -/
theorem merge_frame_and_window_anchor_witness :
    mergedQueue.map frameOf = [entryFirst].map frameOf ∧
      addNotification true mergedQueue entryLate =
        mergedQueue ++ [entryLate] ∧
      entryLate.timestamp - entryFirst.timestamp = groupingWindow ∧
      entryLate.timestamp - entryIncoming.timestamp < groupingWindow :=
  ⟨(merge_frame_and_window_anchor [entryFirst] entryIncoming).1 mergedQueue
      (by decide),
    (merge_frame_and_window_anchor mergedQueue entryLate).2 (by decide),
    by decide, by decide⟩

/-- An entry whose task (and hence group key) is `g`, at t = 0. -/
def entryWithGroup (g : String) : NotificationEntry :=
  { id := 0, taskKey := g, title := "", message := "", type := ""
    timestamp := 0, groupId := g }

/-- Feed a list of updates through `addNotification` (grouping enabled, as
the constructor's default preferences have it), starting from an empty
queue. -/
def enqueueAll (entries : List NotificationEntry) : List NotificationEntry :=
  entries.foldl (addNotification true) []

/-- 101 updates for 101 distinct tasks. -/
def manyEntries : List NotificationEntry :=
  (List.range 101).map fun i => entryWithGroup (toString i)

set_option maxRecDepth 4096 in
/-- C7 counterexample: `addNotification` has no bound — 101 non-groupable
enqueues leave 101 entries in the queue, exceeding the claimed bound of
100; no eviction happens anywhere in the enqueue path. -/
theorem queue_bound_counterexample :
    100 < (enqueueAll manyEntries).length := by decide

/-- C7 as amended: the notification queue is unbounded — an enqueue either
merges (length unchanged) or appends one entry (length + 1); it never
evicts, so the only removal is the FIFO drain in `processQueue`. -/
theorem addNotification_never_evicts (grouping : Bool)
    (q : List NotificationEntry) (n : NotificationEntry) :
    (addNotification grouping q n).length = q.length ∨
      (addNotification grouping q n).length = q.length + 1 := by
  cases grouping with
  | false =>
    right
    simp [addNotification]
  | true =>
    cases h : tryGroupNotification q n with
    | none =>
      right
      simp [addNotification, h]
    | some q' =>
      left
      have hlen := congrArg List.length (tryGroupNotification_frame q n q' h)
      simp only [List.length_map] at hlen
      simp [addNotification, h, hlen]

/-! ## Orchestrator claims -/

/-- First-match lookup hits a freshly prepended binding. -/
theorem lookup_cons_self {β : Type} (id : String) (v : β)
    (l : List (String × β)) : ((id, v) :: l).lookup id = some v := by
  simp [List.lookup]

/-- C8: a failing cycle for a monitored task is caught at the orchestrator
boundary: the task's error counter is incremented and persisted, another
cycle is scheduled, and the task registry is untouched — the task is still
registered. -/
theorem failing_cycle_continues (st : TaskManagerState) (id : String)
    (e : CycleError) (now : Int) (pt : PersistedTask)
    (hreg : (st.activeTasks.lookup id).isSome = true)
    (hpt : st.store.lookup id = some pt) :
    (monitorCycle id (Except.error e) now st).1.errorCounts.lookup id =
        some (getErrorCount st.errorCounts id + 1) ∧
      (monitorCycle id (Except.error e) now st).1.store.lookup id =
        some { pt with errorCount := getErrorCount st.errorCounts id + 1 } ∧
      (monitorCycle id (Except.error e) now st).2.isSome = true ∧
      (monitorCycle id (Except.error e) now st).1.activeTasks =
        st.activeTasks ∧
      ((monitorCycle id
          (Except.error e) now st).1.activeTasks.lookup id).isSome = true := by
  refine ⟨?_, ?_, rfl, rfl, hreg⟩
  · simp [monitorCycle, handleError, lookup_cons_self]
  · simp [monitorCycle, handleError, hpt, saveTask, lookup_cons_self]

/-- A concrete persisted task for the C8 witness. -/
def wTask : PersistedTask :=
  { url := "https://jira.example.com/browse/PROJ-1", added := 0
    lastCheck := none, lastChange := none, snapshot := none
    errorCount := 0, status := "active" }

/-- A concrete manager state monitoring `PROJ-1`. -/
def wState : TaskManagerState :=
  { activeTasks := [("PROJ-1", "https://jira.example.com/browse/PROJ-1")]
    errorCounts := [], lastUpdateTimes := [], cache := []
    store := [("PROJ-1", wTask)] }

/-- Witness for C8: a parse failure on `PROJ-1` in `wState`. -/
theorem failing_cycle_continues_witness :
    (wState.activeTasks.lookup "PROJ-1").isSome = true ∧
      wState.store.lookup "PROJ-1" = some wTask ∧
      ((monitorCycle "PROJ-1" (Except.error CycleError.parseError) 123
            wState).1.errorCounts.lookup "PROJ-1" =
          some (getErrorCount wState.errorCounts "PROJ-1" + 1) ∧
        (monitorCycle "PROJ-1" (Except.error CycleError.parseError) 123
            wState).1.store.lookup "PROJ-1" =
          some { wTask with
                 errorCount := getErrorCount wState.errorCounts "PROJ-1" + 1 } ∧
        (monitorCycle "PROJ-1" (Except.error CycleError.parseError) 123
            wState).2.isSome = true ∧
        (monitorCycle "PROJ-1" (Except.error CycleError.parseError) 123
            wState).1.activeTasks = wState.activeTasks ∧
        ((monitorCycle "PROJ-1" (Except.error CycleError.parseError) 123
            wState).1.activeTasks.lookup "PROJ-1").isSome = true) :=
  ⟨by decide, by decide,
    failing_cycle_continues wState "PROJ-1" CycleError.parseError 123 wTask
      (by decide) (by decide)⟩

/-- The state right after `addTask url` on a fresh manager. -/
def stAfterAdd (url : String) (now : Int) : TaskManagerState :=
  (addTask url now emptyTMState).2

/-- The state after the added task's first cycle fails at time `now2`. -/
def stAfterErrorCycle (url : String) (now now2 : Int) (e : CycleError) :
    TaskManagerState :=
  (monitorCycle (extractTaskId url) (Except.error e) now2
    (stAfterAdd url now)).1

/-- The state after the added task's first cycle succeeds with changes at
time `now2`. -/
def stAfterChangeCycle (url : String) (now now2 : Int)
    (result : ProcessResult) : TaskManagerState :=
  (monitorCycle (extractTaskId url) (Except.ok result) now2
    (stAfterAdd url now)).1

/-- C9: reconstructing a task from the persisted store yields the same
source locator, cached snapshot and error counter as before the restart —
right after `addTask`, after a failing cycle (the persisted counter is
restored), and after a changed cycle (the persisted snapshot is restored);
the resumed scheduler reads the persisted last-change timestamp (the
changed cycle's `now2` survives the restart), so the initial delay equals
the pre-restart delay and elapsed time is never reset to zero. -/
theorem resume_round_trip (url : String) (now now2 : Int) (e : CycleError)
    (result : ProcessResult) (hch : result.changed = true) :
    liveView (resumeState (stAfterAdd url now).store) (extractTaskId url) =
        liveView (stAfterAdd url now) (extractTaskId url) ∧
      (liveView (resumeState (stAfterErrorCycle url now now2 e).store)
            (extractTaskId url) =
          liveView (stAfterErrorCycle url now now2 e) (extractTaskId url) ∧
        nextDelayOf (resumeState (stAfterErrorCycle url now now2 e).store)
            (extractTaskId url) now2 =
          nextDelayOf (stAfterErrorCycle url now now2 e)
            (extractTaskId url) now2) ∧
      (liveView (resumeState (stAfterChangeCycle url now now2 result).store)
            (extractTaskId url) =
          liveView (stAfterChangeCycle url now now2 result)
            (extractTaskId url) ∧
        (resumeState
              (stAfterChangeCycle url now now2 result).store).lastUpdateTimes.lookup
            (extractTaskId url) = some now2 ∧
        nextDelayOf
            (resumeState (stAfterChangeCycle url now now2 result).store)
            (extractTaskId url) now2 =
          nextDelayOf (stAfterChangeCycle url now now2 result)
            (extractTaskId url) now2) := by
  refine ⟨?_, ⟨?_, ?_⟩, ⟨?_, ?_, ?_⟩⟩ <;>
    simp [stAfterAdd, stAfterErrorCycle, stAfterChangeCycle, addTask,
      extractTaskId, emptyTMState, monitorCycle, handleError, handleChanges,
      persistLastCheck, saveTask, resumeState, liveView, nextDelayOf,
      getErrorCount, List.lookup, nonTerminal, List.filterMap, hch]

/-- A concrete changed cycle result for the C9 witness. -/
def wResult : ProcessResult :=
  { changed := true
    changes :=
      { isNew := true, status := none, assignee := none, priority := none
        resolution := none, newComments := none }
    data := snapshotA }

/-- Witness for C9 at a concrete URL, clock values and fetch outcomes. -/
theorem resume_round_trip_witness :
    wResult.changed = true ∧
      (liveView (resumeState (stAfterAdd "u2" 100).store)
            (extractTaskId "u2") =
          liveView (stAfterAdd "u2" 100) (extractTaskId "u2") ∧
        (liveView
              (resumeState
                (stAfterErrorCycle "u2" 100 4000000
                  (CycleError.fetchError 500)).store) (extractTaskId "u2") =
            liveView (stAfterErrorCycle "u2" 100 4000000
              (CycleError.fetchError 500)) (extractTaskId "u2") ∧
          nextDelayOf
              (resumeState
                (stAfterErrorCycle "u2" 100 4000000
                  (CycleError.fetchError 500)).store) (extractTaskId "u2")
              4000000 =
            nextDelayOf (stAfterErrorCycle "u2" 100 4000000
              (CycleError.fetchError 500)) (extractTaskId "u2") 4000000) ∧
        (liveView
              (resumeState
                (stAfterChangeCycle "u2" 100 4000000 wResult).store)
              (extractTaskId "u2") =
            liveView (stAfterChangeCycle "u2" 100 4000000 wResult)
              (extractTaskId "u2") ∧
          (resumeState
                (stAfterChangeCycle "u2" 100 4000000
                  wResult).store).lastUpdateTimes.lookup
              (extractTaskId "u2") = some 4000000 ∧
          nextDelayOf
              (resumeState
                (stAfterChangeCycle "u2" 100 4000000 wResult).store)
              (extractTaskId "u2") 4000000 =
            nextDelayOf (stAfterChangeCycle "u2" 100 4000000 wResult)
              (extractTaskId "u2") 4000000)) :=
  ⟨rfl, resume_round_trip "u2" 100 4000000 (CycleError.fetchError 500)
    wResult rfl⟩

end JiraLogger
